import Mathlib

/-!
Verification of the UptimeGuard monitoring engine against its design
specification.  The Python modules `monitor.py`, `notification_tracker.py`,
`log_manager.py` and `storage.py` are shallowly embedded below: dictionaries
become association lists, the network and the wall clock become explicit
inputs, and every fallible operation is a total Lean function.
-/

namespace UptimeGuard

/-- One probe result, mirroring the dictionary returned by
`real_check` in `monitor.py` (fields in source order). -/
structure CheckResult where
  http_status : Int
  html_keyword : String
  ssl_status : String
  status : String
  latency_ms : Nat
  timestamp : Nat
  error : Option String
  ssl_error : Option String
  deriving Repr, DecidableEq

/-- One entry of `latest_status_snapshot` in `monitor.py`
(the dictionary stored at `latest_status_snapshot[url]`). -/
structure SnapEntry where
  name : String
  http_status : Int
  html_keyword : String
  ssl_status : String
  status : String
  consecutive_failures : Nat
  latency_ms : Nat
  timestamp : Nat
  deriving Repr, DecidableEq

/-- The in-memory snapshot `latest_status_snapshot`, a dictionary keyed by
URL, embedded as an association list where the head entry shadows later
ones. -/
def Snapshot := List (String × SnapEntry)

/-- Dictionary lookup `latest_status_snapshot.get(url)`. -/
def snapLookup (snap : Snapshot) (url : String) : Option SnapEntry :=
  (snap.find? (fun p => p.1 = url)).map (fun p => p.2)

/-- Dictionary assignment `latest_status_snapshot[url] = entry`. -/
def snapInsert (snap : Snapshot) (url : String) (e : SnapEntry) : Snapshot :=
  (url, e) :: snap

/-- `int(previous.get("consecutive_failures", 0) or 0)` from `poll_once`:
the stored count, or 0 when no entry exists for the URL. -/
def snapFailures (snap : Snapshot) (url : String) : Nat :=
  ((snapLookup snap url).map (fun e => e.consecutive_failures)).getD 0

/-- `previous.get("status", "unknown")` from `poll_once`. -/
def snapStatus (snap : Snapshot) (url : String) : String :=
  ((snapLookup snap url).map (fun e => e.status)).getD "unknown"

/-- `new_failures = previous_failures + 1 if result["status"] == "down" else 0`
from `poll_once` (monitor.py line 199). -/
def newFailuresAfter (snap : Snapshot) (url : String) (status : String) : Nat :=
  if status = "down" then snapFailures snap url + 1 else 0

/-- The snapshot update of `poll_once` (monitor.py lines 195-210): compute
the new consecutive-failure count from the previous entry and overwrite the
URL's entry wholesale. -/
def updateSnapshot (snap : Snapshot) (name url : String) (result : CheckResult) :
    Snapshot :=
  snapInsert snap url
    { name := name
      http_status := result.http_status
      html_keyword := result.html_keyword
      ssl_status := result.ssl_status
      status := result.status
      consecutive_failures := newFailuresAfter snap url result.status
      latency_ms := result.latency_ms
      timestamp := result.timestamp }

/-- Feeding a whole sequence of probe results for one URL through the
snapshot update of `poll_once`, in order. -/
def runSnapshot (name url : String) (snap : Snapshot) (results : List CheckResult) :
    Snapshot :=
  results.foldl (fun s r => updateSnapshot s name url r) snap

/-- The length of the trailing run of `"down"` entries of a status sequence
(the spec's "length of the current trailing run of down outcomes"). -/
def trailingDownRun (statuses : List String) : Nat :=
  (statuses.reverse.takeWhile (fun s => s == "down")).length

/-- One record of `NotificationTracker._state_cache` in
`notification_tracker.py` (the value stored by
`update_notification_state`). -/
structure NotifState where
  status : String
  timestamp : Nat
  consecutive_failures : Nat
  deriving Repr, DecidableEq

/-- The tracker's state table `_state_cache`, a dictionary keyed by site
URL, embedded as an association list where the head entry shadows later
ones. -/
def NotifCache := List (String × NotifState)

/-- `NotificationTracker.get_last_notification_state`:
`self._state_cache.get(site_url)`. -/
def get_last_notification_state (cache : NotifCache) (site_url : String) :
    Option NotifState :=
  (cache.find? (fun p => p.1 = site_url)).map (fun p => p.2)

/-- `NotificationTracker.should_send_down_notification`
(notification_tracker.py lines 67-110), with the guard cascade in source
order. -/
def should_send_down_notification (cache : NotifCache) (site_url : String)
    (current_status : String) (consecutive_failures : Nat)
    (failure_threshold : Nat) : Bool :=
  if current_status ≠ "down" then false
  else if consecutive_failures < failure_threshold then false
  else
    match get_last_notification_state cache site_url with
    | none => true
    | some last_state =>
      if last_state.status = "down" ∧
          last_state.consecutive_failures = consecutive_failures then false
      else if last_state.status = "down" ∧
          last_state.consecutive_failures < consecutive_failures then true
      else if last_state.status = "up" then true
      else false

/-- `NotificationTracker.should_send_recovery_notification`
(notification_tracker.py lines 112-155). -/
def should_send_recovery_notification (cache : NotifCache) (site_url : String)
    (current_status : String) (previous_status : String)
    (previous_failures : Nat) (failure_threshold : Nat) : Bool :=
  if current_status ≠ "up" then false
  else if previous_status ≠ "down" then false
  else if previous_failures < failure_threshold then false
  else
    match get_last_notification_state cache site_url with
    | none => true
    | some last_state =>
      if last_state.status = "up" then false
      else if last_state.status = "down" then true
      else false

/-- `NotificationTracker.update_notification_state`
(notification_tracker.py lines 157-172): overwrite the URL's record with the
given status, the current time and the given count. -/
def update_notification_state (cache : NotifCache) (site_url : String)
    (status : String) (consecutive_failures : Nat) (now : Nat) : NotifCache :=
  (site_url, ⟨status, now, consecutive_failures⟩) :: cache

/-- The result of `check_ssl_certificate` in `monitor.py`, consumed by
`real_check`; the TLS probe itself is an independent network effect, so its
outcome is an input of the embedding. -/
structure SslCheckResult where
  ssl_status : String
  ssl_error : Option String
  deriving Repr, DecidableEq

/-- The outcome of the `requests.get` call inside `real_check`: either a
response (status code plus body text), or one of the exception classes the
`try` block distinguishes. -/
inductive HttpFetch where
  | success (status_code : Int) (text : String)
  | timeout
  | connectionFailure
  | sslFailure
  | requestFailure (msg : String)
  | otherFailure (msg : String)
  deriving Repr, DecidableEq

/-- `str.lower()` applied to a Python string, as a character list. -/
def lowerData (s : String) : List Char :=
  s.data.map Char.toLower

/-- Python's `needle in hay` check on strings: `hay` starts with
`needle`. -/
def startsWithL : List Char → List Char → Bool
  | [], _ => true
  | _ :: _, [] => false
  | a :: as, b :: bs => a = b && startsWithL as bs

/-- Python's `needle in hay` substring test on strings. -/
def containsSub (needle : List Char) : List Char → Bool
  | [] => startsWithL needle []
  | c :: rest => startsWithL needle (c :: rest) || containsSub needle rest

/-- `real_check` (monitor.py lines 82-180): a total function of the HTTP
fetch outcome, the keyword list, the measured latency, the clock and the
separate TLS probe result. Every exception the Python `try` block catches is
a constructor of `HttpFetch`, so no failure mode escapes as an exception. -/
def real_check (fetch : HttpFetch) (keywords : List String)
    (latency_ms : Nat) (now : Nat) (sslr : SslCheckResult) : CheckResult :=
  match fetch with
  | .success code text =>
    let content := lowerData text
    if keywords ≠ [] then
      if keywords.any (fun keyword => containsSub (lowerData keyword) content) then
        { http_status := code, html_keyword := "success",
          ssl_status := sslr.ssl_status, status := "up",
          latency_ms := latency_ms, timestamp := now,
          error := none, ssl_error := sslr.ssl_error }
      else
        { http_status := code, html_keyword := "error",
          ssl_status := sslr.ssl_status, status := "down",
          latency_ms := latency_ms, timestamp := now,
          error := none, ssl_error := sslr.ssl_error }
    else
      { http_status := code, html_keyword := "-",
        ssl_status := sslr.ssl_status,
        status := if 200 ≤ code ∧ code < 400 then "up" else "down",
        latency_ms := latency_ms, timestamp := now,
        error := none, ssl_error := sslr.ssl_error }
  | .timeout =>
      { http_status := 408, html_keyword := "-",
        ssl_status := sslr.ssl_status, status := "down",
        latency_ms := latency_ms, timestamp := now,
        error := some "请求超时", ssl_error := sslr.ssl_error }
  | .connectionFailure =>
      { http_status := 0, html_keyword := "-",
        ssl_status := sslr.ssl_status, status := "down",
        latency_ms := latency_ms, timestamp := now,
        error := some "连接失败", ssl_error := sslr.ssl_error }
  | .sslFailure =>
      { http_status := 0, html_keyword := "-",
        ssl_status := sslr.ssl_status, status := "down",
        latency_ms := latency_ms, timestamp := now,
        error := some "SSL证书错误", ssl_error := sslr.ssl_error }
  | .requestFailure msg =>
      { http_status := 0, html_keyword := "-",
        ssl_status := sslr.ssl_status, status := "down",
        latency_ms := latency_ms, timestamp := now,
        error := some ("请求异常: " ++ msg), ssl_error := sslr.ssl_error }
  | .otherFailure msg =>
      { http_status := 0, html_keyword := "-",
        ssl_status := sslr.ssl_status, status := "down",
        latency_ms := latency_ms, timestamp := now,
        error := some ("未知错误: " ++ msg), ssl_error := sslr.ssl_error }

/-- One monitored site as read from `sites.json` by `poll_once`:
`site.get("url", "")`, `site.get("name", "")`, `site.get("keywords", [])`. -/
structure Site where
  name : String
  url : String
  keywords : List String
  deriving Repr, DecidableEq

/-- One alert send attempted by `poll_once` (a call of
`send_site_down_alert` or `send_site_recovery_alert`). -/
inductive Alert where
  | down (site_name site_url : String) (consecutive_failures : Nat)
      (error_info : Option String)
  | recovery (site_name site_url : String) (latency_ms : Nat)
  deriving Repr, DecidableEq

/-- One line written through `write_log_line` during a poll cycle, kept
structurally (name, url and the probe result the line is formatted from). -/
structure LogRecord where
  site_name : String
  site_url : String
  result : CheckResult
  deriving Repr, DecidableEq

/-- The Telegram configuration `poll_once` reads at the start of a cycle:
`is_telegram_configured()` and `get_failure_threshold()`. -/
structure TelegramCfg where
  configured : Bool
  threshold : Nat
  deriving Repr, DecidableEq

/-- The mutable state a poll cycle can see: the in-memory snapshot, the log,
the alert attempts so far, and the NotificationTracker's state table both in
memory (`_state_cache`) and as persisted on disk. -/
structure PollState where
  snapshot : Snapshot
  logs : List LogRecord
  alerts : List Alert
  notif_cache : NotifCache
  notif_file : NotifCache

/-- `error_info if error_info != 'None' else None` from `poll_once`
line 247: the probe's error message, with the literal string "None"
normalised away. -/
def errorInfoOf : Option String → Option String
  | some s => if s = "None" then none else some s
  | none => none

/-- The Telegram branch of `poll_once` (monitor.py lines 238-263): the list
of alert sends attempted for one site in one cycle. -/
def siteAlerts (configured : Bool) (failure_threshold : Nat)
    (name url : String) (previous_status : String)
    (previous_failures new_failures : Nat) (result : CheckResult) :
    List Alert :=
  if configured then
    if result.status = "down" ∧ failure_threshold ≤ new_failures ∧
        new_failures ≤ failure_threshold + 3 then
      [.down name url new_failures (errorInfoOf result.error)]
    else if result.status = "up" ∧ previous_status = "down" ∧
        failure_threshold ≤ previous_failures then
      [.recovery name url result.latency_ms]
    else []
  else []

/-- The body of the `for site in sites` loop of `poll_once`
(monitor.py lines 188-263): update the snapshot, write the log line, and
attempt at most one alert. The NotificationTracker state is never read or
written. -/
def pollSite (cfg : TelegramCfg) (st : PollState) (site : Site)
    (result : CheckResult) : PollState :=
  let previous_failures := snapFailures st.snapshot site.url
  let previous_status := snapStatus st.snapshot site.url
  let new_failures := newFailuresAfter st.snapshot site.url result.status
  { snapshot := updateSnapshot st.snapshot site.name site.url result
    logs := st.logs ++ [⟨site.name, site.url, result⟩]
    alerts := st.alerts ++
      siteAlerts cfg.configured cfg.threshold site.name site.url
        previous_status previous_failures new_failures result
    notif_cache := st.notif_cache
    notif_file := st.notif_file }

/-- `poll_once` (monitor.py lines 183-263) over a whole site list, the probe
outcome of each site given as data. -/
def poll_once (cfg : TelegramCfg) (st : PollState)
    (checks : List (Site × CheckResult)) : PollState :=
  checks.foldl (fun s p => pollSite cfg s p.1 p.2) st

/-- A parsed wall-clock date-time, the value `datetime.strptime(ts,
"%Y-%m-%d %H:%M:%S")` produces in `LogManager._should_keep_log_line`. -/
structure DateTime6 where
  year : Nat
  month : Nat
  day : Nat
  hour : Nat
  minute : Nat
  second : Nat
  deriving Repr, DecidableEq

/-- Python's Gregorian leap-year rule (`calendar.isleap`). -/
def isLeapYear (y : Nat) : Bool :=
  (y % 4 == 0 && y % 100 != 0) || y % 400 == 0

/-- Days in a month of the proleptic Gregorian calendar, as `datetime`
validates them. -/
def daysInMonth (y m : Nat) : Nat :=
  if m = 2 then (if isLeapYear y then 29 else 28)
  else if m = 4 ∨ m = 6 ∨ m = 9 ∨ m = 11 then 30
  else 31

/-- Days in all years before year `y` (CPython `_days_before_year`). -/
def daysBeforeYear (y : Nat) : Nat :=
  365 * (y - 1) + (y - 1) / 4 - (y - 1) / 100 + (y - 1) / 400

/-- Days in the months of year `y` strictly before month `m`. -/
def daysBeforeMonth (y m : Nat) : Nat :=
  (List.range (m - 1)).foldl (fun acc i => acc + daysInMonth y (i + 1)) 0

/-- `datetime.timestamp()` of a parsed date-time, as seconds on a fixed
linear scale (the constant timezone offset cancels out of every comparison
the source makes). -/
def epochSeconds (dt : DateTime6) : Nat :=
  (daysBeforeYear dt.year + daysBeforeMonth dt.year dt.month + (dt.day - 1)) * 86400
    + dt.hour * 3600 + dt.minute * 60 + dt.second

/-- Numeric value of an ASCII digit, `none` for any other character. -/
def digitVal (c : Char) : Option Nat :=
  if c.isDigit then some (c.toNat - 48) else none

/-- The `%Y` field of CPython strptime: exactly four digits. -/
def parseYear4 : List Char → Option (Nat × List Char)
  | a :: b :: c :: d :: rest => do
      let va ← digitVal a
      let vb ← digitVal b
      let vc ← digitVal c
      let vd ← digitVal d
      some (1000 * va + 100 * vb + 10 * vc + vd, rest)
  | _ => none

/-- A one-or-two-digit strptime field such as `%m`, `%d`, `%H`, `%M`, `%S`:
two digits are taken when their value lies in `[lo2, hi2]`; a single digit
followed by a non-digit is taken when it lies in `[lo1, hi1]`; anything else
fails (mirroring the alternation-with-literal backtracking of the CPython
field regexes). -/
def parseField2or1 (lo2 hi2 lo1 hi1 : Nat) : List Char → Option (Nat × List Char)
  | a :: b :: rest =>
    match digitVal a, digitVal b with
    | some va, some vb =>
      let v := 10 * va + vb
      if lo2 ≤ v ∧ v ≤ hi2 then some (v, rest) else none
    | some va, none =>
      if lo1 ≤ va ∧ va ≤ hi1 then some (va, b :: rest) else none
    | none, _ => none
  | [a] =>
    (digitVal a).bind (fun va =>
      if lo1 ≤ va ∧ va ≤ hi1 then some (va, []) else none)
  | [] => none

/-- A literal character of the strptime format. -/
def parseLit (c : Char) : List Char → Option (List Char)
  | x :: rest => if x = c then some rest else none
  | [] => none

/-- The whitespace of the strptime format (CPython turns a literal space
into `\s+`): one or more whitespace characters. -/
def parseWs : List Char → Option (List Char)
  | x :: rest =>
    if x.isWhitespace then some (rest.dropWhile Char.isWhitespace) else none
  | [] => none

/-- `datetime.strptime(ts, "%Y-%m-%d %H:%M:%S")`: the whole string must be
consumed, and the `datetime` constructor additionally requires a positive
year and a day that exists in the parsed month. -/
def strptimeFull (cs : List Char) : Option DateTime6 := do
  let (y, r1) ← parseYear4 cs
  let r2 ← parseLit '-' r1
  let (m, r3) ← parseField2or1 1 12 1 9 r2
  let r4 ← parseLit '-' r3
  let (d, r5) ← parseField2or1 1 31 1 9 r4
  let r6 ← parseWs r5
  let (h, r7) ← parseField2or1 0 23 0 9 r6
  let r8 ← parseLit ':' r7
  let (mi, r9) ← parseField2or1 0 59 0 9 r8
  let r10 ← parseLit ':' r9
  let (s, r11) ← parseField2or1 0 59 0 9 r10
  if r11 = [] ∧ 1 ≤ y ∧ d ≤ daysInMonth y m then
    some ⟨y, m, d, h, mi, s⟩
  else
    none

/-- The bracketed timestamp extraction of `_should_keep_log_line`:
`line.startswith('[') and ']' in line`, then `line[1:line.index(']')]`. -/
def extractBracketTs : List Char → Option (List Char)
  | '[' :: rest =>
    if rest.contains ']' then some (rest.takeWhile (fun c => c ≠ ']')) else none
  | _ => none

/-- `LogManager._should_keep_log_line` (log_manager.py lines 114-141): keep
the line unless its bracketed timestamp contains a space and a colon, parses
as a full date-time, and is older than the cutoff. The time-only branch and
every failure branch of the source all return True, collapsed here into the
`else true` arms. -/
def should_keep_log_line (line : List Char) (cutoff_timestamp : Nat) : Bool :=
  match extractBracketTs line with
  | some ts =>
    if ts.contains ' ' && ts.contains ':' then
      match strptimeFull ts with
      | some dt => cutoff_timestamp ≤ epochSeconds dt
      | none => true
    else true
  | none => true

/-- The rewrite step shared by `_cleanup_old_logs_by_time` and
`cleanup_logs_now` (log_manager.py lines 171-207): the durable file keeps
exactly the lines `_should_keep_log_line` accepts. -/
def cleanup_logs_now (lines : List (List Char)) (cutoff_timestamp : Nat) :
    List (List Char) :=
  lines.filter (fun line => should_keep_log_line line cutoff_timestamp)

/-- The composite timestamp parse of `_should_keep_log_line`: the bracketed
prefix, the space-and-colon precondition, then strptime; `none` exactly when
the source cannot parse the line's timestamp as a full date-time. -/
def lineParsedTimestamp (line : List Char) : Option Nat :=
  match extractBracketTs line with
  | some ts =>
    if ts.contains ' ' && ts.contains ':' then
      (strptimeFull ts).map epochSeconds
    else none
  | none => none

/-- A JSON value, the result of `json.load` on the sites file. -/
inductive JsonValue where
  | null
  | bool (b : Bool)
  | num (n : Int)
  | str (s : String)
  | arr (items : List JsonValue)
  | obj (fields : List (String × JsonValue))

/-- The observable state of the `sites.json` backing store: absent,
present but not valid JSON (so `json.load` raises `JSONDecodeError`), or
present with a parsed JSON value. -/
inductive SitesFile where
  | missing
  | malformed
  | content (v : JsonValue)

/-- `save_sites` (storage.py lines 46-50): overwrite the file with the JSON
list of sites. -/
def save_sites (sites : List JsonValue) : SitesFile :=
  .content (.arr sites)

/-- `ensure_sites_file_exists` (storage.py lines 18-21): create the file
with an empty list only when it is missing. -/
def ensure_sites_file_exists : SitesFile → SitesFile
  | .missing => save_sites []
  | f => f

/-- `load_sites` (storage.py lines 24-43): ensure the file exists, then
return its parsed JSON list, or the empty list when the JSON is invalid or
not a list. Returns the resulting file state together with the list; every
branch of the source is a return, so the function is total. -/
def load_sites (f : SitesFile) : SitesFile × List JsonValue :=
  let f' := ensure_sites_file_exists f
  match f' with
  | .malformed => (f', [])
  | .content (.arr items) => (f', items)
  | .content _ => (f', [])
  | .missing => (f', [])

/-- Whether a JSON value is a list (`isinstance(data, list)`). -/
def JsonValue.isArr : JsonValue → Bool
  | .arr _ => true
  | _ => false

theorem snapLookup_insert (snap : Snapshot) (url : String) (e : SnapEntry) :
    snapLookup (snapInsert snap url e) url = some e := by
  simp [snapLookup, snapInsert, List.find?]

theorem snapFailures_update (snap : Snapshot) (name url : String)
    (r : CheckResult) :
    snapFailures (updateSnapshot snap name url r) url =
      if r.status = "down" then snapFailures snap url + 1 else 0 := by
  simp [snapFailures, updateSnapshot, snapLookup_insert, newFailuresAfter]

theorem foldr_downCount (m : List String) (c : Nat) :
    m.foldr (fun s acc => if s = "down" then acc + 1 else 0) c =
      if m.all (fun s => s == "down") then c + m.length
      else (m.takeWhile (fun s => s == "down")).length := by
  induction m with
  | nil => simp
  | cons s rest ih =>
    by_cases hs : s = "down"
    · subst hs
      by_cases hall : rest.all (fun s => s == "down") = true
      · simp [List.foldr, ih, hall, List.takeWhile]
        omega
      · simp [List.foldr, ih, hall, List.takeWhile]
    · have hb : (s == "down") = false := by simp [hs]
      simp [List.foldr, ih, List.takeWhile, hb, hs]

theorem snapFailures_run (name url : String) (snap : Snapshot)
    (results : List CheckResult) :
    snapFailures (runSnapshot name url snap results) url =
      (results.map (fun r => r.status)).foldl
        (fun acc s => if s = "down" then acc + 1 else 0)
        (snapFailures snap url) := by
  induction results generalizing snap with
  | nil => simp [runSnapshot]
  | cons r rest ih =>
    simp only [runSnapshot, List.foldl, List.map]
    rw [show (List.foldl (fun s r => updateSnapshot s name url r)
          (updateSnapshot snap name url r) rest)
        = runSnapshot name url (updateSnapshot snap name url r) rest from rfl]
    rw [ih, snapFailures_update]

theorem foldl_downCount_eq_trailing (l : List String) :
    l.foldl (fun acc s => if s = "down" then acc + 1 else 0) 0 =
      trailingDownRun l := by
  rw [← List.reverse_reverse l, List.foldl_reverse, trailingDownRun]
  rw [List.reverse_reverse]
  rw [foldr_downCount]
  by_cases hall : (l.reverse).all (fun s => s == "down") = true
  · simp [hall]
    have : (l.reverse).takeWhile (fun s => s == "down") = l.reverse := by
      apply List.takeWhile_eq_self_iff.mpr
      intro x hx
      exact List.all_eq_true.mp hall x hx
    rw [this]
    simp
  · simp [hall]

/-- Claim C1: for every sequence of probe results fed through the snapshot
update of `poll_once`, the stored `consecutive_failures` for a URL equals the
length of the current trailing run of "down" outcomes; each step sets the
count to 0 when the new status is not "down" (in particular when it is "up")
and to the previous entry's count plus exactly 1 when it is "down", a missing
prior entry counting as 0. -/
theorem consecutive_failures_trailing_run (name url : String)
    (results : List CheckResult) :
    snapFailures (runSnapshot name url [] results) url =
        trailingDownRun (results.map (fun r => r.status))
      ∧ (∀ (snap : Snapshot) (r : CheckResult),
          snapFailures (updateSnapshot snap name url r) url =
            if r.status = "down" then snapFailures snap url + 1 else 0)
      ∧ snapFailures [] url = 0 := by
  refine ⟨?_, fun snap r => snapFailures_update snap name url r, rfl⟩
  rw [snapFailures_run]
  have h0 : snapFailures ([] : Snapshot) url = 0 := rfl
  rw [h0]
  exact foldl_downCount_eq_trailing _

/-- Claim C2: `should_send_down_notification` returns false when the current
status is not "down" or the count is below the threshold; otherwise it
returns true with no prior state, true when the prior state's status is
"up", true when the prior state's status is "down" and the current count
strictly exceeds the prior recorded count, and false when the prior state's
status is "down" and the counts are equal. -/
theorem down_notification_decision (cache : NotifCache)
    (site_url current_status : String) (n t : Nat) :
    ((current_status ≠ "down" ∨ n < t) →
        should_send_down_notification cache site_url current_status n t = false)
    ∧ (current_status = "down" → t ≤ n →
        (get_last_notification_state cache site_url = none →
            should_send_down_notification cache site_url current_status n t = true)
        ∧ (∀ st : NotifState, get_last_notification_state cache site_url = some st →
            (st.status = "up" →
                should_send_down_notification cache site_url current_status n t = true)
            ∧ (st.status = "down" → st.consecutive_failures < n →
                should_send_down_notification cache site_url current_status n t = true)
            ∧ (st.status = "down" → st.consecutive_failures = n →
                should_send_down_notification cache site_url current_status n t = false))) := by
  constructor
  · rintro (h | h)
    · simp [should_send_down_notification, h]
    · by_cases hc : current_status = "down"
      · simp [should_send_down_notification, hc, h]
      · simp [should_send_down_notification, hc]
  · intro hc ht
    have hlt : ¬ n < t := Nat.not_lt.mpr ht
    constructor
    · intro hnone
      simp [should_send_down_notification, hc, hlt, hnone]
    · intro st hsome
      refine ⟨?_, ?_, ?_⟩
      · intro hup
        simp [should_send_down_notification, hc, hlt, hsome, hup]
      · intro hdown hcf
        have hne : ¬ st.consecutive_failures = n := by omega
        simp [should_send_down_notification, hc, hlt, hsome, hdown, hne, hcf]
      · intro hdown heq
        simp [should_send_down_notification, hc, hlt, hsome, hdown, heq]

theorem down_notification_decision_witness :
    should_send_down_notification [("u", ⟨"down", 0, 4⟩)] "u" "down" 5 3 = true := by
  have h :=
    (down_notification_decision [("u", ⟨"down", 0, 4⟩)] "u" "down" 5 3).2
      rfl (by decide)
  exact (h.2 ⟨"down", 0, 4⟩ rfl).2.1 rfl (by decide)

/-- Claim C3: `should_send_recovery_notification` returns false unless the
current status is "up", the previous status is "down" and the previous
consecutive-failure count is at least the threshold; when those hold it
returns true with no prior state or a prior "down" state, and false with a
prior "up" state. In particular a recovery after a sub-threshold failure run
never returns true. -/
theorem recovery_notification_decision (cache : NotifCache)
    (site_url current_status previous_status : String) (pf t : Nat) :
    ((current_status ≠ "up" ∨ previous_status ≠ "down" ∨ pf < t) →
        should_send_recovery_notification cache site_url current_status
          previous_status pf t = false)
    ∧ (current_status = "up" → previous_status = "down" → t ≤ pf →
        (get_last_notification_state cache site_url = none →
            should_send_recovery_notification cache site_url current_status
              previous_status pf t = true)
        ∧ (∀ st : NotifState, get_last_notification_state cache site_url = some st →
            (st.status = "down" →
                should_send_recovery_notification cache site_url current_status
                  previous_status pf t = true)
            ∧ (st.status = "up" →
                should_send_recovery_notification cache site_url current_status
                  previous_status pf t = false))) := by
  constructor
  · rintro (h | h | h)
    · simp [should_send_recovery_notification, h]
    · by_cases hc : current_status = "up"
      · simp [should_send_recovery_notification, hc, h]
      · simp [should_send_recovery_notification, hc]
    · by_cases hc : current_status = "up"
      · by_cases hp : previous_status = "down"
        · simp [should_send_recovery_notification, hc, hp, h]
        · simp [should_send_recovery_notification, hc, hp]
      · simp [should_send_recovery_notification, hc]
  · intro hc hp ht
    have hlt : ¬ pf < t := Nat.not_lt.mpr ht
    constructor
    · intro hnone
      simp [should_send_recovery_notification, hc, hp, hlt, hnone]
    · intro st hsome
      constructor
      · intro hdown
        simp [should_send_recovery_notification, hc, hp, hlt, hsome, hdown]
      · intro hup
        simp [should_send_recovery_notification, hc, hp, hlt, hsome, hup]

theorem recovery_notification_decision_witness :
    should_send_recovery_notification [] "u" "up" "down" 10 10 = true :=
  ((recovery_notification_decision [] "u" "up" "down" 10 10).2
      rfl rfl (by decide)).1 rfl

/-- Claim C10: when the prior notification state records status "down" with
a consecutive-failure count strictly greater than the current count,
`should_send_down_notification` returns false even for a current "down"
status at or above the threshold. -/
theorem down_notification_shorter_run (cache : NotifCache) (site_url : String)
    (n t : Nat) (st : NotifState)
    (h1 : get_last_notification_state cache site_url = some st)
    (h2 : st.status = "down") (h3 : n < st.consecutive_failures) :
    should_send_down_notification cache site_url "down" n t = false := by
  by_cases hnt : n < t
  · simp [should_send_down_notification, hnt]
  · have e1 : ¬ st.consecutive_failures = n := by omega
    have e2 : ¬ st.consecutive_failures < n := by omega
    simp [should_send_down_notification, hnt, h1, h2, e1, e2]

theorem down_notification_shorter_run_witness :
    should_send_down_notification [("u", ⟨"down", 0, 9⟩)] "u" "down" 5 3 = false :=
  down_notification_shorter_run [("u", ⟨"down", 0, 9⟩)] "u" 5 3 ⟨"down", 0, 9⟩
    rfl rfl (by decide)

theorem startsWithL_iff (n : List Char) : ∀ h : List Char,
    startsWithL n h = true ↔ ∃ r, h = n ++ r := by
  induction n with
  | nil => intro h; simp [startsWithL]
  | cons a as ih =>
    intro h
    cases h with
    | nil =>
      simp [startsWithL]
    | cons b bs =>
      simp only [startsWithL, Bool.and_eq_true, decide_eq_true_eq, ih,
        List.cons_append, List.cons.injEq]
      constructor
      · rintro ⟨hab, r, hr⟩
        exact ⟨r, hab.symm, hr⟩
      · rintro ⟨r, hba, hr⟩
        exact ⟨hba.symm, r, hr⟩

theorem containsSub_iff (n : List Char) : ∀ h : List Char,
    containsSub n h = true ↔ ∃ l r, h = l ++ n ++ r := by
  intro h
  induction h with
  | nil =>
    simp only [containsSub, startsWithL_iff]
    constructor
    · rintro ⟨r, hr⟩
      exact ⟨[], r, by simpa using hr⟩
    · rintro ⟨l, r, hlr⟩
      have h1 : (l ++ n) ++ r = [] := hlr.symm
      rcases List.append_eq_nil.mp h1 with ⟨h2, h3⟩
      rcases List.append_eq_nil.mp h2 with ⟨h4, h5⟩
      exact ⟨[], by simp [h5]⟩
  | cons c rest ih =>
    simp only [containsSub, Bool.or_eq_true, startsWithL_iff, ih]
    constructor
    · rintro (⟨r, hr⟩ | ⟨l, r, hlr⟩)
      · exact ⟨[], r, by simpa using hr⟩
      · exact ⟨c :: l, r, by simp [hlr]⟩
    · rintro ⟨l, r, hlr⟩
      cases l with
      | nil =>
        left
        exact ⟨r, by simpa using hlr⟩
      | cons x xs =>
        right
        simp only [List.cons_append, List.cons.injEq] at hlr
        exact ⟨xs, r, hlr.2⟩

/-- Claim C5: `real_check` is a total function of the fetch outcome — every
exception category the source catches is returned as data, with
`http_status` 408 for a timeout and 0 for connection, TLS, generic-request
and unknown failures, a non-empty `error` message, and the outcome forced to
"down". -/
theorem real_check_error_handling (keywords : List String)
    (latency_ms now : Nat) (sslr : SslCheckResult) (msg : String) :
    ((real_check .timeout keywords latency_ms now sslr).http_status = 408
      ∧ (real_check .timeout keywords latency_ms now sslr).status = "down"
      ∧ ∃ e, (real_check .timeout keywords latency_ms now sslr).error = some e
          ∧ 0 < e.length)
    ∧ ((real_check .connectionFailure keywords latency_ms now sslr).http_status = 0
      ∧ (real_check .connectionFailure keywords latency_ms now sslr).status = "down"
      ∧ ∃ e, (real_check .connectionFailure keywords latency_ms now sslr).error = some e
          ∧ 0 < e.length)
    ∧ ((real_check .sslFailure keywords latency_ms now sslr).http_status = 0
      ∧ (real_check .sslFailure keywords latency_ms now sslr).status = "down"
      ∧ ∃ e, (real_check .sslFailure keywords latency_ms now sslr).error = some e
          ∧ 0 < e.length)
    ∧ ((real_check (.requestFailure msg) keywords latency_ms now sslr).http_status = 0
      ∧ (real_check (.requestFailure msg) keywords latency_ms now sslr).status = "down"
      ∧ ∃ e, (real_check (.requestFailure msg) keywords latency_ms now sslr).error = some e
          ∧ 0 < e.length)
    ∧ ((real_check (.otherFailure msg) keywords latency_ms now sslr).http_status = 0
      ∧ (real_check (.otherFailure msg) keywords latency_ms now sslr).status = "down"
      ∧ ∃ e, (real_check (.otherFailure msg) keywords latency_ms now sslr).error = some e
          ∧ 0 < e.length) := by
  refine ⟨⟨rfl, rfl, "请求超时", rfl, by decide⟩,
    ⟨rfl, rfl, "连接失败", rfl, by decide⟩,
    ⟨rfl, rfl, "SSL证书错误", rfl, by decide⟩,
    ⟨rfl, rfl, "请求异常: " ++ msg, rfl, ?_⟩,
    ⟨rfl, rfl, "未知错误: " ++ msg, rfl, ?_⟩⟩
  · rw [String.length_append]
    have : 0 < "请求异常: ".length := by decide
    omega
  · rw [String.length_append]
    have : 0 < "未知错误: ".length := by decide
    omega

/-- Claim C6: on a successful HTTP fetch, a non-empty keyword list makes the
outcome "up" exactly when the lowercased body contains some lowercased
keyword as a substring, independent of the status code; an empty keyword
list makes the outcome "up" exactly when `200 ≤ http_status < 400`. -/
theorem keyword_classification (code : Int) (body : String)
    (keywords : List String) (latency_ms now : Nat) (sslr : SslCheckResult) :
    (keywords ≠ [] →
        ((real_check (.success code body) keywords latency_ms now sslr).status = "up" ↔
          ∃ kw ∈ keywords, ∃ l r, lowerData body = l ++ lowerData kw ++ r))
    ∧ (keywords = [] →
        ((real_check (.success code body) keywords latency_ms now sslr).status = "up" ↔
          (200 ≤ code ∧ code < 400))) := by
  constructor
  · intro hk
    by_cases hany : keywords.any
        (fun keyword => containsSub (lowerData keyword) (lowerData body)) = true
    · constructor
      · intro _
        obtain ⟨kw, hmem, hsub⟩ := List.any_eq_true.mp hany
        exact ⟨kw, hmem, (containsSub_iff _ _).mp hsub⟩
      · intro _
        simp [real_check, hk, hany]
    · constructor
      · intro hup
        exfalso
        simp [real_check, hk, hany] at hup
      · rintro ⟨kw, hmem, l, r, hlr⟩
        exact absurd
          (List.any_eq_true.mpr ⟨kw, hmem, (containsSub_iff _ _).mpr ⟨l, r, hlr⟩⟩)
          hany
  · intro hk
    subst hk
    by_cases h : 200 ≤ code ∧ code < 400
    · simp [real_check, h]
    · simp [real_check, h]

theorem keyword_classification_witness :
    ((["ok"] : List String) ≠ [])
      ∧ (real_check (.success 500 "Service OK") ["ok"] 7 0
            ⟨"up", none⟩).status = "up"
      ∧ (real_check (.success 200 "hello") ["xyz"] 7 0
            ⟨"up", none⟩).status = "down" := by
  refine ⟨by simp, ?_, by decide⟩
  exact ((keyword_classification 500 "Service OK" ["ok"] 7 0 ⟨"up", none⟩).1
      (by simp)).mpr ⟨"ok", by simp, "service ".data, [], by decide⟩

/-- Claim C4: in a poll cycle, a down-alert for a site is attempted exactly
when the transport is configured, the probe outcome is "down" and the
updated consecutive-failure count lies in `[threshold, threshold+3]`; beyond
that window no down-alert is attempted even though the site stays down. -/
theorem down_alert_window (cfg : TelegramCfg) (st : PollState) (site : Site)
    (result : CheckResult) :
    (∃ e, (pollSite cfg st site result).alerts =
        st.alerts ++ [Alert.down site.name site.url
          (newFailuresAfter st.snapshot site.url result.status) e])
      ↔ (cfg.configured = true ∧ result.status = "down"
          ∧ cfg.threshold ≤ newFailuresAfter st.snapshot site.url result.status
          ∧ newFailuresAfter st.snapshot site.url result.status ≤ cfg.threshold + 3) := by
  have hA : (pollSite cfg st site result).alerts
      = st.alerts ++ siteAlerts cfg.configured cfg.threshold site.name site.url
          (snapStatus st.snapshot site.url) (snapFailures st.snapshot site.url)
          (newFailuresAfter st.snapshot site.url result.status) result := rfl
  rw [hA]
  by_cases hcfg : cfg.configured = true
  · by_cases hc : result.status = "down"
        ∧ cfg.threshold ≤ newFailuresAfter st.snapshot site.url result.status
        ∧ newFailuresAfter st.snapshot site.url result.status ≤ cfg.threshold + 3
    · constructor
      · intro _
        exact ⟨hcfg, hc.1, hc.2.1, hc.2.2⟩
      · intro _
        refine ⟨errorInfoOf result.error, ?_⟩
        unfold siteAlerts
        rw [if_pos hcfg, if_pos hc]
    · constructor
      · rintro ⟨e, he⟩
        exfalso
        by_cases hr : result.status = "up"
            ∧ snapStatus st.snapshot site.url = "down"
            ∧ cfg.threshold ≤ snapFailures st.snapshot site.url
        · simp only [siteAlerts, hcfg, if_true, if_neg hc, if_pos hr] at he
          have h2 := List.append_cancel_left he
          simp at h2
        · simp only [siteAlerts, hcfg, if_true, if_neg hc, if_neg hr] at he
          have h2 := List.append_cancel_left he
          simp at h2
      · intro hrhs
        exact absurd ⟨hrhs.2.1, hrhs.2.2.1, hrhs.2.2.2⟩ hc
  · constructor
    · rintro ⟨e, he⟩
      exfalso
      simp only [siteAlerts, if_neg hcfg] at he
      have h2 := List.append_cancel_left he
      simp at h2
    · intro hrhs
      exact absurd hrhs.1 hcfg

theorem down_alert_window_witness :
    ∃ e, (pollSite ⟨true, 1⟩ ⟨[], [], [], [], []⟩ ⟨"s", "http://s", []⟩
        ⟨0, "-", "not_applicable", "down", 5, 0, some "连接失败", none⟩).alerts
      = ([] : List Alert) ++ [Alert.down "s" "http://s"
          (newFailuresAfter [] "http://s" "down") e] :=
  (down_alert_window ⟨true, 1⟩ ⟨[], [], [], [], []⟩ ⟨"s", "http://s", []⟩
      ⟨0, "-", "not_applicable", "down", 5, 0, some "连接失败", none⟩).mpr
    ⟨rfl, rfl, by decide, by decide⟩

/-- Claim C9: a poll cycle neither reads nor writes the persisted
NotificationTracker state — the tracker's table (in memory and on disk) is
unchanged by `poll_once`, and the alerts attempted in the cycle do not
depend on it. -/
theorem poll_once_notification_frame (cfg : TelegramCfg)
    (checks : List (Site × CheckResult)) (st : PollState)
    (cache file : NotifCache) :
    (poll_once cfg st checks).notif_cache = st.notif_cache
    ∧ (poll_once cfg st checks).notif_file = st.notif_file
    ∧ (poll_once cfg
          { st with notif_cache := cache, notif_file := file } checks).alerts
        = (poll_once cfg st checks).alerts := by
  induction checks generalizing st with
  | nil => exact ⟨rfl, rfl, rfl⟩
  | cons p rest ih =>
    have hcons : ∀ s : PollState,
        poll_once cfg s (p :: rest) = poll_once cfg (pollSite cfg s p.1 p.2) rest :=
      fun _ => rfl
    simp only [hcons]
    have hstep :
        pollSite cfg { st with notif_cache := cache, notif_file := file } p.1 p.2
          = { pollSite cfg st p.1 p.2 with
                notif_cache := cache, notif_file := file } := rfl
    rw [hstep]
    obtain ⟨h1, h2, h3⟩ := ih (pollSite cfg st p.1 p.2)
    exact ⟨h1.trans rfl, h2.trans rfl, h3⟩

example : strptimeFull ("2025-09-05 05:42:37".data) = some ⟨2025, 9, 5, 5, 42, 37⟩ := by decide

example : strptimeFull ("2025-2-3 5:4:7".data) = some ⟨2025, 2, 3, 5, 4, 7⟩ := by decide

example : strptimeFull ("2025-13-05 05:42:37".data) = none := by decide

example : strptimeFull ("2025-02-30 05:42:37".data) = none := by decide

example : strptimeFull ("2024-02-29 00:00:00".data) = some ⟨2024, 2, 29, 0, 0, 0⟩ := by decide

example : strptimeFull ("2025-09-05 05:42:37x".data) = none := by decide

example : strptimeFull ("05:42:37".data) = none := by decide

theorem should_keep_iff (line : List Char) (cutoff : Nat) :
    should_keep_log_line line cutoff = true ↔
      lineParsedTimestamp line = none
      ∨ ∃ t, lineParsedTimestamp line = some t ∧ cutoff ≤ t := by
  cases hex : extractBracketTs line with
  | none => simp [should_keep_log_line, lineParsedTimestamp, hex]
  | some ts =>
    by_cases hpre : (ts.contains ' ' && ts.contains ':') = true
    · have hand := hpre
      simp only [Bool.and_eq_true] at hand
      have hsp : ' ' ∈ ts := by simpa using hand.1
      have hco : ':' ∈ ts := by simpa using hand.2
      cases hst : strptimeFull ts with
      | none =>
        simp [should_keep_log_line, lineParsedTimestamp, hex, hpre, hst]
      | some dt =>
        simp only [should_keep_log_line, lineParsedTimestamp, hex]
        simp [hst]
        constructor
        · rintro ((h | h) | h)
          · exact Or.inl (fun hs => absurd hs h)
          · exact Or.inl (fun _ => h)
          · exact Or.inr ⟨epochSeconds dt, ⟨⟨hsp, hco⟩, rfl⟩, h⟩
        · rintro (h | ⟨t, ⟨⟨_, _⟩, het⟩, hct⟩)
          · exact absurd hco (h hsp)
          · refine Or.inr ?_
            rw [het]
            exact hct
    · have hno : ¬ (' ' ∈ ts ∧ ':' ∈ ts) := by
        intro hand
        apply hpre
        simp only [Bool.and_eq_true]
        exact ⟨by simpa using hand.1, by simpa using hand.2⟩
      simp [should_keep_log_line, lineParsedTimestamp, hex, hpre]
      constructor
      · intro _
        exact Or.inl (fun h1 h2 => absurd ⟨h1, h2⟩ hno)
      · intro _
        exact Or.inl (not_and_or.mp hno)

/-- Claim C7: after the 3-day-retention cleanup, every remaining line's
timestamp either parses to a value at least the cutoff or does not parse as
a full date-time; an unparsable line is always kept, and a line whose parsed
timestamp is older than the cutoff is always removed. -/
theorem log_retention (lines : List (List Char)) (cutoff : Nat) :
    (∀ line ∈ cleanup_logs_now lines cutoff,
        (∃ t, lineParsedTimestamp line = some t ∧ cutoff ≤ t)
        ∨ lineParsedTimestamp line = none)
    ∧ (∀ line ∈ lines, lineParsedTimestamp line = none →
        line ∈ cleanup_logs_now lines cutoff)
    ∧ (∀ line ∈ lines, ∀ t, lineParsedTimestamp line = some t → t < cutoff →
        line ∉ cleanup_logs_now lines cutoff) := by
  refine ⟨?_, ?_, ?_⟩
  · intro line hmem
    have h := (List.mem_filter.mp hmem).2
    rcases (should_keep_iff line cutoff).mp h with h1 | ⟨t, ht, hle⟩
    · exact Or.inr h1
    · exact Or.inl ⟨t, ht, hle⟩
  · intro line hmem hnone
    exact List.mem_filter.mpr
      ⟨hmem, (should_keep_iff line cutoff).mpr (Or.inl hnone)⟩
  · intro line _ t ht hlt hcontra
    have h := (List.mem_filter.mp hcontra).2
    rcases (should_keep_iff line cutoff).mp h with h1 | ⟨t', ht', hle⟩
    · rw [ht] at h1
      cases h1
    · rw [ht] at ht'
      injection ht' with h2
      omega

theorem log_retention_witness :
    lineParsedTimestamp ("no timestamp".data) = none
      ∧ "no timestamp".data ∈ cleanup_logs_now ["no timestamp".data] 0 := by
  refine ⟨by decide, ?_⟩
  exact (log_retention ["no timestamp".data] 0).2.1 "no timestamp".data
    (by simp) (by decide)

/-- Claim C8: `load_sites` is total over every backing-store state and
tolerates degradation: a missing file is created holding the empty list and
the empty list is returned; invalid JSON and valid non-list JSON both yield
the empty list; a JSON list is returned as is. -/
theorem load_sites_robust :
    (load_sites .missing = (.content (.arr []), []))
    ∧ ((load_sites .malformed).2 = [])
    ∧ (∀ items : List JsonValue,
        (load_sites (.content (.arr items))).2 = items)
    ∧ (∀ v : JsonValue, v.isArr = false → (load_sites (.content v)).2 = []) := by
  refine ⟨rfl, rfl, fun items => rfl, fun v hv => ?_⟩
  cases v with
  | arr items => exact absurd hv (by simp [JsonValue.isArr])
  | null => rfl
  | bool b => rfl
  | num n => rfl
  | str s => rfl
  | obj fields => rfl

theorem load_sites_robust_witness :
    (JsonValue.null.isArr = false)
      ∧ (load_sites (.content .null)).2 = [] :=
  ⟨rfl, load_sites_robust.2.2.2 .null rfl⟩

end UptimeGuard
